import Mathlib

/-!
Verification of the Inngest/Vercel capacity-planner (src/main.py) against its
natural-language specification.

The source is a single Python script: a deterministic formula chain (the
"capacity calculator", lines 60-89) followed by a randomized per-minute
traffic-curve estimator (lines 92-121).  Python's floating-point arithmetic
is embedded as exact arithmetic: the calculator over `ℚ` (all its inputs are
integers or rationals, `math.ceil` becomes `Int.ceil`), the traffic estimator
over `ℝ` (its shape factors use `sin` and unbounded Gaussian noise draws,
modelled as an arbitrary real-valued noise vector).
-/

namespace CapacityPlanner

/-- The externally supplied parameters, mirroring the widget values of
src/main.py lines 13-57.  `spike_scaler` is a slider value (a multiple of
0.1 in the UI), embedded as a rational. -/
structure PlanningInputs where
  steps_per_session : ℕ
  seconds_per_step : ℕ
  tokens_per_step : ℕ
  safety_buffer : ℕ
  spike_scaler : ℚ
  parallelism_input : ℕ
  emails_per_hour_input : ℕ
deriving DecidableEq, Repr

/-- Validity bounds enforced by the input widgets: `min_value=1` on the four
integer inputs and on `tokens_per_step`, the safety-buffer slider range
[0,100], and the spike-scaler slider range [1.0, 10.0]. -/
def Valid (i : PlanningInputs) : Prop :=
  1 ≤ i.steps_per_session ∧ 1 ≤ i.seconds_per_step ∧ 1 ≤ i.tokens_per_step ∧
  i.safety_buffer ≤ 100 ∧ 1 ≤ i.parallelism_input ∧ 1 ≤ i.emails_per_hour_input ∧
  1 ≤ i.spike_scaler ∧ i.spike_scaler ≤ 10

instance (i : PlanningInputs) : Decidable (Valid i) := by
  unfold Valid; infer_instance

/-- src/main.py line 64: `sessions_per_hour_per_function = 3600 / (S * T)`. -/
def sessions_per_hour_per_function (i : PlanningInputs) : ℚ :=
  3600 / ((i.steps_per_session : ℚ) * (i.seconds_per_step : ℚ))

/-- src/main.py line 67: `emails_per_hour_from_parallelism = parallelism_input * sessions_per_hour_per_function`. -/
def emails_per_hour_from_parallelism (i : PlanningInputs) : ℚ :=
  (i.parallelism_input : ℚ) * sessions_per_hour_per_function i

/-- src/main.py line 68: `emails_per_hour_with_buffer = emails_per_hour_from_parallelism / (1 + safety_buffer / 100)`. -/
def emails_per_hour_with_buffer (i : PlanningInputs) : ℚ :=
  emails_per_hour_from_parallelism i / (1 + (i.safety_buffer : ℚ) / 100)

/-- src/main.py line 71: `required_parallelism_raw = emails_per_hour_input / sessions_per_hour_per_function`. -/
def required_parallelism_raw (i : PlanningInputs) : ℚ :=
  (i.emails_per_hour_input : ℚ) / sessions_per_hour_per_function i

/-- src/main.py line 72: `required_parallelism_with_buffer = math.ceil(required_parallelism_raw * (1 + safety_buffer / 100))`. -/
def required_parallelism_with_buffer (i : PlanningInputs) : ℤ :=
  ⌈required_parallelism_raw i * (1 + (i.safety_buffer : ℚ) / 100)⌉

/-- src/main.py line 75: `sessions_per_min = emails_per_hour_input / 60`. -/
def sessions_per_min (i : PlanningInputs) : ℚ :=
  (i.emails_per_hour_input : ℚ) / 60

/-- src/main.py line 76: `steps_per_min = sessions_per_min * S`. -/
def steps_per_min (i : PlanningInputs) : ℚ :=
  sessions_per_min i * (i.steps_per_session : ℚ)

/-- src/main.py line 77: `tpm_raw = steps_per_min * tokens_per_step`. -/
def tpm_raw (i : PlanningInputs) : ℚ :=
  steps_per_min i * (i.tokens_per_step : ℚ)

/-- src/main.py line 80: `tpm_with_buffer = tpm_raw * (1 + safety_buffer / 100)`. -/
def tpm_with_buffer (i : PlanningInputs) : ℚ :=
  tpm_raw i * (1 + (i.safety_buffer : ℚ) / 100)

/-- src/main.py line 81: `tpm_with_spikes = tpm_with_buffer * spike_scaler`. -/
def tpm_with_spikes (i : PlanningInputs) : ℚ :=
  tpm_with_buffer i * i.spike_scaler

/-- src/main.py line 82: `tpm_needed = max(math.ceil(tpm_with_spikes), tokens_per_step)`. -/
def tpm_needed (i : PlanningInputs) : ℤ :=
  max ⌈tpm_with_spikes i⌉ (i.tokens_per_step : ℤ)

/-- src/main.py lines 85-86: `rpm_raw = steps_per_min; rpm_needed = math.ceil(rpm_raw)`. -/
def rpm_needed (i : PlanningInputs) : ℤ :=
  ⌈steps_per_min i⌉

/-- src/main.py line 89: `total_latency_per_session = S * T`. -/
def total_latency_per_session (i : PlanningInputs) : ℕ :=
  i.steps_per_session * i.seconds_per_step

/-- src/main.py line 134: the branch `if emails_per_hour_with_buffer >= emails_per_hour_input`
selects the success banner; this boolean is the spec's `meets_target`. -/
def meets_target (i : PlanningInputs) : Bool :=
  decide ((i.emails_per_hour_input : ℚ) ≤ emails_per_hour_with_buffer i)

/-- The spec's `CapacityResult` record (§3): the scalar outputs of the
calculator component. -/
structure CapacityResult where
  sessions_per_hour_per_worker : ℚ
  achievable_emails_per_hour : ℚ
  required_parallelism : ℤ
  requests_per_minute : ℤ
  tokens_per_minute_steady : ℚ
  total_latency_per_session_seconds : ℕ
  meets_target : Bool
deriving DecidableEq, Repr

/-- The calculator component as one pure function (src/main.py lines 60-89
plus the banner branch at line 134), bundling the derived scalars into the
spec's `CapacityResult`.  The code never rounds `tpm_raw`, so
`tokens_per_minute_steady` is the unrounded rational `tpm_raw`. -/
def compute_capacity (i : PlanningInputs) : CapacityResult where
  sessions_per_hour_per_worker := sessions_per_hour_per_function i
  achievable_emails_per_hour := emails_per_hour_with_buffer i
  required_parallelism := required_parallelism_with_buffer i
  requests_per_minute := rpm_needed i
  tokens_per_minute_steady := tpm_raw i
  total_latency_per_session_seconds := total_latency_per_session i
  meets_target := meets_target i

/-- A concrete valid parameter set (the default widget values of the source,
with spike scaler 2). -/
def sample_inputs : PlanningInputs :=
  ⟨10, 30, 3000, 20, 2, 100, 10000⟩

/-! ### Traffic pattern estimator (src/main.py lines 92-121)

The curve is a function of the inputs and of the 60 Gaussian noise draws
`np.random.normal(0, σ, 60)`; a draw can take any real value, so the noise
vector is an arbitrary `Fin 60 → ℝ` parameter. -/

/-- src/main.py line 93: `base_traffic = emails_per_hour_input / 60`. -/
noncomputable def base_traffic (i : PlanningInputs) : ℝ :=
  (i.emails_per_hour_input : ℝ) / 60

/-- src/main.py lines 96-104: the tiered shape factor.  Tier selection is on
`spike_scaler` (`<= 1.5`, `<= 3.0`, else); each tier is
`1 + A*np.sin(2*pi*minutes/period) + B*np.random.normal(0, sigma, 60)`, where
`noise m` stands for the `m`-th draw from `normal(0, sigma)`. -/
noncomputable def spike_factor (i : PlanningInputs) (noise : Fin 60 → ℝ) (m : Fin 60) : ℝ :=
  if i.spike_scaler ≤ 3/2 then
    1 + 0.2 * Real.sin (2 * Real.pi * (m.val : ℝ) / 30) + 0.1 * noise m
  else if i.spike_scaler ≤ 3 then
    1 + 0.5 * Real.sin (2 * Real.pi * (m.val : ℝ) / 20) + 0.2 * noise m
  else
    1 + 0.8 * Real.sin (2 * Real.pi * (m.val : ℝ) / 15) + 0.3 * noise m

/-- src/main.py line 107: `traffic_per_minute = base_traffic * spike_factor * spike_scaler`. -/
noncomputable def traffic_raw (i : PlanningInputs) (noise : Fin 60 → ℝ) (m : Fin 60) : ℝ :=
  base_traffic i * spike_factor i noise m * (i.spike_scaler : ℝ)

/-- src/main.py line 108: `np.maximum(traffic_per_minute, base_traffic * 0.1)`,
the 10%-of-base floor applied before normalization. -/
noncomputable def traffic_floored (i : PlanningInputs) (noise : Fin 60 → ℝ) (m : Fin 60) : ℝ :=
  max (traffic_raw i noise m) (base_traffic i * 0.1)

/-- src/main.py line 111: `total_traffic = np.sum(traffic_per_minute)` (of the
floored curve). -/
noncomputable def total_traffic (i : PlanningInputs) (noise : Fin 60 → ℝ) : ℝ :=
  ∑ m : Fin 60, traffic_floored i noise m

/-- src/main.py lines 112-113: rescale each sample by
`emails_per_hour_input / total_traffic` when `total_traffic` exceeds the
target; this is the final `traffic_per_minute` curve. -/
noncomputable def traffic_per_minute (i : PlanningInputs) (noise : Fin 60 → ℝ) (m : Fin 60) : ℝ :=
  if (i.emails_per_hour_input : ℝ) < total_traffic i noise then
    traffic_floored i noise m * ((i.emails_per_hour_input : ℝ) / total_traffic i noise)
  else
    traffic_floored i noise m

/-- src/main.py lines 116-117: per-minute step count and token demand derived
from the final curve. -/
noncomputable def tpm_per_minute (i : PlanningInputs) (noise : Fin 60 → ℝ) (m : Fin 60) : ℝ :=
  traffic_per_minute i noise m * (i.steps_per_session : ℝ) * (i.tokens_per_step : ℝ)

/-- src/main.py line 120: `avg_tpm_traffic = np.mean(tpm_per_minute)`. -/
noncomputable def avg_tpm_traffic (i : PlanningInputs) (noise : Fin 60 → ℝ) : ℝ :=
  (∑ m : Fin 60, tpm_per_minute i noise m) / 60

/-! ### Claims about the capacity calculator -/

/-- C1: for every valid input, the achievable emails/hour equals
`available_parallelism * 3600 / (steps_per_session * seconds_per_step)
/ (1 + safety_buffer_pct/100)` exactly. -/
theorem C1_achievable_formula (i : PlanningInputs) (h : Valid i) :
    (compute_capacity i).achievable_emails_per_hour =
      (i.parallelism_input : ℚ) * 3600
        / ((i.steps_per_session : ℚ) * (i.seconds_per_step : ℚ))
        / (1 + (i.safety_buffer : ℚ) / 100) := by
  show emails_per_hour_with_buffer i = _
  unfold emails_per_hour_with_buffer emails_per_hour_from_parallelism
    sessions_per_hour_per_function
  ring

/-- Witness for C1 at the default widget values. -/
theorem C1_witness :
    Valid sample_inputs ∧
      (compute_capacity sample_inputs).achievable_emails_per_hour =
        (sample_inputs.parallelism_input : ℚ) * 3600
          / ((sample_inputs.steps_per_session : ℚ) * (sample_inputs.seconds_per_step : ℚ))
          / (1 + (sample_inputs.safety_buffer : ℚ) / 100) :=
  ⟨by decide, C1_achievable_formula sample_inputs (by decide)⟩

/-- C2: `required_parallelism` equals
`ceil(target / sessions_per_hour_per_worker * (1 + buffer/100))`, and it is
the smallest integer P with
`P * sessions_per_hour_per_worker >= target * (1 + buffer/100)`
(stated as a least-integer characterization). -/
theorem C2_required_parallelism_ceiling (i : PlanningInputs) (h : Valid i) :
    required_parallelism_with_buffer i =
        ⌈(i.emails_per_hour_input : ℚ) / sessions_per_hour_per_function i
          * (1 + (i.safety_buffer : ℚ) / 100)⌉ ∧
      ∀ P : ℤ, required_parallelism_with_buffer i ≤ P ↔
        (i.emails_per_hour_input : ℚ) * (1 + (i.safety_buffer : ℚ) / 100)
          ≤ (P : ℚ) * sessions_per_hour_per_function i := by
  obtain ⟨hS, hT, -, -, -, -, -, -⟩ := h
  refine ⟨rfl, fun P => ?_⟩
  have hST : (0 : ℚ) < (i.steps_per_session : ℚ) * (i.seconds_per_step : ℚ) := by
    have h1 : (0 : ℚ) < (i.steps_per_session : ℚ) := by exact_mod_cast hS
    have h2 : (0 : ℚ) < (i.seconds_per_step : ℚ) := by exact_mod_cast hT
    exact mul_pos h1 h2
  have hsess : 0 < sessions_per_hour_per_function i := by
    unfold sessions_per_hour_per_function
    exact div_pos (by norm_num) hST
  have hrw : required_parallelism_raw i * (1 + (i.safety_buffer : ℚ) / 100)
      = (i.emails_per_hour_input : ℚ) * (1 + (i.safety_buffer : ℚ) / 100)
        / sessions_per_hour_per_function i := by
    rw [required_parallelism_raw, div_mul_eq_mul_div]
  rw [required_parallelism_with_buffer, Int.ceil_le, hrw, div_le_iff hsess]

/-- Witness for C2: with the default widget values, the least-integer
characterization instantiated at P = 1000. -/
theorem C2_witness :
    Valid sample_inputs ∧
      (required_parallelism_with_buffer sample_inputs ≤ 1000 ↔
        (sample_inputs.emails_per_hour_input : ℚ)
            * (1 + (sample_inputs.safety_buffer : ℚ) / 100)
          ≤ ((1000 : ℤ) : ℚ) * sessions_per_hour_per_function sample_inputs) :=
  ⟨by decide, (C2_required_parallelism_ceiling sample_inputs (by decide)).2 1000⟩

/-- Inputs refuting C3: one step of one second costing one token, buffer 0,
target 1 email/hour.  Then `steps_per_min = 1/60` and
`tpm_raw = 1/60`, which is not the claimed `ceil(1/60) = 1`. -/
def c3_inputs : PlanningInputs :=
  ⟨1, 1, 1, 0, 1, 1, 1⟩

/-- C3 fails on the code: `tpm_raw` (the spec's `tokens_per_minute_steady`)
is never rounded up; at `c3_inputs` it is `1/60`, not `ceil(1/60) = 1`. -/
theorem C3_counterexample :
    ¬ ((compute_capacity c3_inputs).tokens_per_minute_steady =
        (⌈steps_per_min c3_inputs * (c3_inputs.tokens_per_step : ℚ)⌉ : ℚ)) := by
  have h1 : (compute_capacity c3_inputs).tokens_per_minute_steady = 1 / 60 := by
    show tpm_raw c3_inputs = 1 / 60
    norm_num [tpm_raw, steps_per_min, sessions_per_min, c3_inputs]
  have h2 : steps_per_min c3_inputs * (c3_inputs.tokens_per_step : ℚ) = 1 / 60 := by
    norm_num [steps_per_min, sessions_per_min, c3_inputs]
  have h3 : ⌈(1 / 60 : ℚ)⌉ = 1 := by
    rw [Int.ceil_eq_iff] <;> norm_num
  rw [h1, h2, h3]
  norm_num

/-- C3 amended: `tokens_per_minute_steady` equals
`steps_per_minute * tokens_per_step` exactly, unrounded, and
`requests_per_minute` equals `ceil(steps_per_minute)`, where
`steps_per_minute = (target/60) * steps_per_session`. -/
theorem C3_amended_tpm_rpm (i : PlanningInputs) (h : Valid i) :
    (compute_capacity i).tokens_per_minute_steady =
        (i.emails_per_hour_input : ℚ) / 60 * (i.steps_per_session : ℚ)
          * (i.tokens_per_step : ℚ) ∧
      (compute_capacity i).requests_per_minute =
        ⌈(i.emails_per_hour_input : ℚ) / 60 * (i.steps_per_session : ℚ)⌉ :=
  ⟨rfl, rfl⟩

/-- Witness for the amended C3 at the default widget values. -/
theorem C3_witness :
    Valid sample_inputs ∧
      (compute_capacity sample_inputs).tokens_per_minute_steady =
        (sample_inputs.emails_per_hour_input : ℚ) / 60
          * (sample_inputs.steps_per_session : ℚ) * (sample_inputs.tokens_per_step : ℚ) :=
  ⟨by decide, (C3_amended_tpm_rpm sample_inputs (by decide)).1⟩

/-- C6: `tpm_needed` equals
`max(ceil((target/60) * steps * tokens * (1 + buffer/100) * spike_scaler), tokens_per_step)`,
and in particular `tpm_needed >= tokens_per_step` always. -/
theorem C6_tpm_needed_formula (i : PlanningInputs) (h : Valid i) :
    tpm_needed i =
        max ⌈(i.emails_per_hour_input : ℚ) / 60 * (i.steps_per_session : ℚ)
            * (i.tokens_per_step : ℚ) * (1 + (i.safety_buffer : ℚ) / 100)
            * i.spike_scaler⌉ (i.tokens_per_step : ℤ) ∧
      (i.tokens_per_step : ℤ) ≤ tpm_needed i :=
  ⟨rfl, le_max_right _ _⟩

/-- Witness for C6 at the default widget values. -/
theorem C6_witness :
    Valid sample_inputs ∧ (sample_inputs.tokens_per_step : ℤ) ≤ tpm_needed sample_inputs :=
  ⟨by decide, (C6_tpm_needed_formula sample_inputs (by decide)).2⟩

/-- C7: `meets_target` is true iff the achievable emails/hour is at least the
target, and equality of the two values yields true. -/
theorem C7_meets_target_iff (i : PlanningInputs) (h : Valid i) :
    ((compute_capacity i).meets_target = true ↔
        (i.emails_per_hour_input : ℚ) ≤ (compute_capacity i).achievable_emails_per_hour) ∧
      ((compute_capacity i).achievable_emails_per_hour = (i.emails_per_hour_input : ℚ) →
        (compute_capacity i).meets_target = true) := by
  have h1 : (compute_capacity i).meets_target = true ↔
      (i.emails_per_hour_input : ℚ) ≤ (compute_capacity i).achievable_emails_per_hour := by
    show meets_target i = true ↔ _
    rw [meets_target, decide_eq_true_eq]
    exact Iff.rfl
  exact ⟨h1, fun he => h1.mpr (le_of_eq he.symm)⟩

/-- Witness for C7 at the default widget values. -/
theorem C7_witness :
    Valid sample_inputs ∧
      ((compute_capacity sample_inputs).meets_target = true ↔
        (sample_inputs.emails_per_hour_input : ℚ)
          ≤ (compute_capacity sample_inputs).achievable_emails_per_hour) :=
  ⟨by decide, (C7_meets_target_iff sample_inputs (by decide)).1⟩

/-- C9: the calculator is deterministic; it is a pure function of the inputs
(no hidden state appears in the embedding), so identical inputs give
identical `CapacityResult` values. -/
theorem C9_deterministic (i j : PlanningInputs) (h : i = j) :
    compute_capacity i = compute_capacity j :=
  congrArg compute_capacity h

/-- Witness for C9: two invocations on the same concrete inputs agree. -/
theorem C9_witness :
    compute_capacity sample_inputs = compute_capacity sample_inputs :=
  C9_deterministic sample_inputs sample_inputs rfl

/-- C10: `achievable_emails_per_hour` is nondecreasing in
`available_parallelism`, hence `meets_target` is monotone in it. -/
theorem C10_meets_target_monotone (i : PlanningInputs) (p q : ℕ)
    (h : Valid i) (hpq : p ≤ q) :
    emails_per_hour_with_buffer {i with parallelism_input := p}
        ≤ emails_per_hour_with_buffer {i with parallelism_input := q} ∧
      ((compute_capacity {i with parallelism_input := p}).meets_target = true →
        (compute_capacity {i with parallelism_input := q}).meets_target = true) := by
  have hmono : emails_per_hour_with_buffer {i with parallelism_input := p}
      ≤ emails_per_hour_with_buffer {i with parallelism_input := q} := by
    unfold emails_per_hour_with_buffer emails_per_hour_from_parallelism
      sessions_per_hour_per_function
    have hpq' : (p : ℚ) ≤ (q : ℚ) := by exact_mod_cast hpq
    gcongr
  refine ⟨hmono, fun hp => ?_⟩
  have hp' : ((i.emails_per_hour_input : ℚ))
      ≤ emails_per_hour_with_buffer {i with parallelism_input := p} := by
    have := hp
    rw [show (compute_capacity {i with parallelism_input := p}).meets_target
        = meets_target {i with parallelism_input := p} from rfl,
      meets_target, decide_eq_true_eq] at this
    exact this
  rw [show (compute_capacity {i with parallelism_input := q}).meets_target
      = meets_target {i with parallelism_input := q} from rfl,
    meets_target, decide_eq_true_eq]
  exact le_trans hp' hmono

/-- Witness for C10 at the default widget values with parallelism 100 and 101. -/
theorem C10_witness :
    Valid sample_inputs ∧ (100 : ℕ) ≤ 101 ∧
      emails_per_hour_with_buffer {sample_inputs with parallelism_input := 100}
        ≤ emails_per_hour_with_buffer {sample_inputs with parallelism_input := 101} :=
  ⟨by decide, by decide,
    (C10_meets_target_monotone sample_inputs 100 101 (by decide) (by decide)).1⟩

/-! ### Claims about the traffic pattern estimator -/

lemma base_traffic_pos (i : PlanningInputs) (h : Valid i) : 0 < base_traffic i := by
  obtain ⟨-, -, -, -, -, hE, -, -⟩ := h
  have hE' : (0 : ℝ) < (i.emails_per_hour_input : ℝ) := by exact_mod_cast hE
  unfold base_traffic
  exact div_pos hE' (by norm_num)

lemma traffic_floored_lb (i : PlanningInputs) (noise : Fin 60 → ℝ) (m : Fin 60) :
    base_traffic i * 0.1 ≤ traffic_floored i noise m :=
  le_max_right _ _

lemma traffic_floored_pos (i : PlanningInputs) (h : Valid i) (noise : Fin 60 → ℝ)
    (m : Fin 60) : 0 < traffic_floored i noise m :=
  lt_of_lt_of_le (mul_pos (base_traffic_pos i h) (by norm_num)) (traffic_floored_lb i noise m)

lemma total_traffic_pos (i : PlanningInputs) (h : Valid i) (noise : Fin 60 → ℝ) :
    0 < total_traffic i noise := by
  unfold total_traffic
  exact Finset.sum_pos (fun m _ => traffic_floored_pos i h noise m) Finset.univ_nonempty

lemma traffic_per_minute_pos (i : PlanningInputs) (h : Valid i) (noise : Fin 60 → ℝ)
    (m : Fin 60) : 0 < traffic_per_minute i noise m := by
  have hE' : (0 : ℝ) < (i.emails_per_hour_input : ℝ) := by
    exact_mod_cast h.2.2.2.2.2.1
  unfold traffic_per_minute
  by_cases hc : (i.emails_per_hour_input : ℝ) < total_traffic i noise
  · rw [if_pos hc]
    exact mul_pos (traffic_floored_pos i h noise m)
      (div_pos hE' (total_traffic_pos i h noise))
  · rw [if_neg hc]
    exact traffic_floored_pos i h noise m

/-- C5: for every valid input and every outcome of the noise draws, the sum of
the 60 final traffic samples never exceeds the target emails per hour. -/
theorem C5_sum_le_target (i : PlanningInputs) (h : Valid i) (noise : Fin 60 → ℝ) :
    ∑ m : Fin 60, traffic_per_minute i noise m ≤ (i.emails_per_hour_input : ℝ) := by
  by_cases hc : (i.emails_per_hour_input : ℝ) < total_traffic i noise
  · have htot : (0 : ℝ) < total_traffic i noise := total_traffic_pos i h noise
    have hsum : ∑ m : Fin 60, traffic_per_minute i noise m
        = (∑ m : Fin 60, traffic_floored i noise m)
          * ((i.emails_per_hour_input : ℝ) / total_traffic i noise) := by
      rw [Finset.sum_mul]
      exact Finset.sum_congr rfl fun m _ => by rw [traffic_per_minute, if_pos hc]
    have htt : (∑ m : Fin 60, traffic_floored i noise m) = total_traffic i noise := rfl
    rw [hsum, htt, mul_comm]
    exact le_of_eq (div_mul_cancel₀ _ (ne_of_gt htot))
  · have hsum : ∑ m : Fin 60, traffic_per_minute i noise m = total_traffic i noise := by
      rw [total_traffic]
      exact Finset.sum_congr rfl fun m _ => by rw [traffic_per_minute, if_neg hc]
    rw [hsum]
    exact le_of_not_lt hc

/-- Witness for C5 at the default widget values with all noise draws zero. -/
theorem C5_witness :
    Valid sample_inputs ∧
      ∑ m : Fin 60, traffic_per_minute sample_inputs (fun _ => 0) m
        ≤ (sample_inputs.emails_per_hour_input : ℝ) :=
  ⟨by decide, C5_sum_le_target sample_inputs (by decide) (fun _ => 0)⟩

/-- C8: for every valid input and every noise outcome, the curve-based average
token demand is strictly positive, so the peak-to-average division is
well-defined. -/
theorem C8_avg_tpm_pos (i : PlanningInputs) (h : Valid i) (noise : Fin 60 → ℝ) :
    0 < avg_tpm_traffic i noise := by
  have hS' : (0 : ℝ) < (i.steps_per_session : ℝ) := by exact_mod_cast h.1
  have hTok' : (0 : ℝ) < (i.tokens_per_step : ℝ) := by exact_mod_cast h.2.2.1
  have htpm : ∀ m : Fin 60, 0 < tpm_per_minute i noise m := fun m =>
    mul_pos (mul_pos (traffic_per_minute_pos i h noise m) hS') hTok'
  unfold avg_tpm_traffic
  exact div_pos (Finset.sum_pos (fun m _ => htpm m) Finset.univ_nonempty) (by norm_num)

/-- Witness for C8 at the default widget values with all noise draws zero. -/
theorem C8_witness :
    Valid sample_inputs ∧ 0 < avg_tpm_traffic sample_inputs (fun _ => 0) :=
  ⟨by decide, C8_avg_tpm_pos sample_inputs (by decide) (fun _ => 0)⟩

/-- Inputs refuting C4: one step of one second costing one token, buffer 0,
spike scaler 1, target 60 emails/hour (so the base rate is 1 per minute). -/
def c4_inputs : PlanningInputs :=
  ⟨1, 1, 1, 0, 1, 1, 60⟩

/-- Noise outcome refuting C4: the draws cancel the sinusoid and set the shape
factor to 0 in minute 0 and 11 in the other 59 minutes.  Gaussian draws have
full support, so this is a possible outcome of `np.random.normal`. -/
noncomputable def c4_noise : Fin 60 → ℝ := fun m =>
  10 * ((if m = 0 then 0 else 11) - 1 - 0.2 * Real.sin (2 * Real.pi * (m.val : ℝ) / 30))

lemma c4_spike_factor (m : Fin 60) :
    spike_factor c4_inputs c4_noise m = if m = 0 then 0 else 11 := by
  unfold spike_factor c4_noise
  rw [if_pos (by norm_num [c4_inputs])]
  by_cases hm : m = 0
  · rw [if_pos hm]; ring
  · rw [if_neg hm]; ring

lemma c4_base : base_traffic c4_inputs = 1 := by
  unfold base_traffic
  norm_num [c4_inputs]

lemma c4_raw (m : Fin 60) :
    traffic_raw c4_inputs c4_noise m = if m = 0 then 0 else 11 := by
  unfold traffic_raw
  rw [c4_spike_factor m, c4_base]
  have hsp : ((c4_inputs.spike_scaler : ℚ) : ℝ) = 1 := by norm_num [c4_inputs]
  rw [hsp]
  by_cases hm : m = 0
  · rw [if_pos hm]; ring
  · rw [if_neg hm]; ring

lemma c4_floored (m : Fin 60) :
    traffic_floored c4_inputs c4_noise m = if m = 0 then 0.1 else 11 := by
  unfold traffic_floored
  rw [c4_raw m, c4_base, one_mul]
  by_cases hm : m = 0
  · rw [if_pos hm, max_eq_right (by norm_num), if_pos hm]
  · rw [if_neg hm, max_eq_left (by norm_num), if_neg hm]

lemma c4_total : total_traffic c4_inputs c4_noise = 649.1 := by
  unfold total_traffic
  have hsplit : ∀ m : Fin 60, traffic_floored c4_inputs c4_noise m
      = 11 + (if m = 0 then (-10.9 : ℝ) else 0) := by
    intro m
    rw [c4_floored m]
    by_cases hm : m = 0
    · rw [if_pos hm, if_pos hm]; norm_num
    · rw [if_neg hm, if_neg hm]; norm_num
  rw [Finset.sum_congr rfl fun m _ => hsplit m, Finset.sum_add_distrib,
    Finset.sum_const, Finset.card_univ,
    Finset.sum_ite_eq' Finset.univ (0 : Fin 60) (fun _ => (-10.9 : ℝ))]
  simp only [Finset.mem_univ, if_true, Fintype.card_fin, nsmul_eq_mul]
  norm_num

/-- C4 fails on the code: the 10% floor is applied before normalization, and
normalization can rescale a floored sample below 10% of the base rate.  At
`c4_inputs` with `c4_noise`, minute 0 ends at `0.1 * 60/649.1 < 0.1 * base`. -/
theorem C4_counterexample :
    Valid c4_inputs ∧
      traffic_per_minute c4_inputs c4_noise 0 < 0.1 * base_traffic c4_inputs := by
  refine ⟨by decide, ?_⟩
  have hE : (c4_inputs.emails_per_hour_input : ℝ) = 60 := by norm_num [c4_inputs]
  have hcond : (c4_inputs.emails_per_hour_input : ℝ) < total_traffic c4_inputs c4_noise := by
    rw [hE, c4_total]; norm_num
  unfold traffic_per_minute
  rw [if_pos hcond, c4_floored 0, if_pos rfl, c4_total, c4_base, hE]
  norm_num

/-- C4 amended: every sample of the floored curve before normalization is at
least 10% of the base rate, and every final sample is at least
`0.1 * base * min(1, target / pre-normalization-total)`: normalization may
uniformly rescale samples below the 10% floor. -/
theorem C4_amended_floor (i : PlanningInputs) (h : Valid i) (noise : Fin 60 → ℝ)
    (m : Fin 60) :
    base_traffic i * 0.1 ≤ traffic_floored i noise m ∧
      base_traffic i * 0.1
          * min 1 ((i.emails_per_hour_input : ℝ) / total_traffic i noise)
        ≤ traffic_per_minute i noise m := by
  have hfl := traffic_floored_lb i noise m
  refine ⟨hfl, ?_⟩
  have htot := total_traffic_pos i h noise
  have hE' : (0 : ℝ) < (i.emails_per_hour_input : ℝ) := by
    exact_mod_cast h.2.2.2.2.2.1
  have hb01 : (0 : ℝ) ≤ base_traffic i * 0.1 :=
    le_of_lt (mul_pos (base_traffic_pos i h) (by norm_num))
  unfold traffic_per_minute
  by_cases hc : (i.emails_per_hour_input : ℝ) < total_traffic i noise
  · rw [if_pos hc]
    have hr1 : (i.emails_per_hour_input : ℝ) / total_traffic i noise ≤ 1 :=
      (div_le_one htot).mpr (le_of_lt hc)
    rw [min_eq_right hr1]
    exact mul_le_mul_of_nonneg_right hfl (le_of_lt (div_pos hE' htot))
  · rw [if_neg hc]
    calc base_traffic i * 0.1
          * min 1 ((i.emails_per_hour_input : ℝ) / total_traffic i noise)
        ≤ base_traffic i * 0.1 * 1 :=
          mul_le_mul_of_nonneg_left (min_le_left _ _) hb01
      _ = base_traffic i * 0.1 := mul_one _
      _ ≤ traffic_floored i noise m := hfl

/-- Witness for the amended C4 at the default widget values, zero noise,
minute 0. -/
theorem C4_witness :
    Valid sample_inputs ∧
      base_traffic sample_inputs * 0.1
        ≤ traffic_floored sample_inputs (fun _ => 0) 0 :=
  ⟨by decide, (C4_amended_floor sample_inputs (by decide) (fun _ => 0) 0).1⟩

end CapacityPlanner
